import Mathlib

/-!
Shallow embedding of the offload decision engine of
`src/mininet/mymininet.py` (edge-server/client recommendation simulator),
together with theorems checking the specification's claims about it.

Modelling conventions:
* Python floats are modelled as rationals (`ℚ`); all arithmetic in the
  embedded fragment is exact on the inputs the program manipulates.
* `round(x, 2)` is modelled as rounding `100 * x` to the nearest integer
  and dividing by `100` (`round2`).
* The running maximum `best_score`, initialised to `float('-inf')`, is
  modelled as `WithBot ℚ` with `⊥` standing for `-inf`.
* `cloud_loads`, a Python dict from cloud id to an integer counter, is
  modelled as an association list `List (Nat × Nat)` with first-match
  lookup and first-match update; the simulation registers each cloud id
  exactly once, so keys are unique in every reachable load state.
* The external measurement collaborator (`measure_performance`, which
  shells out to iperf/ping) is abstracted away: the engine receives each
  candidate cloud together with the `(bandwidth, delay, loss)` triple
  measured for it, exactly the data the Python loop feeds the scoring
  code.
-/

/-- A device profile: the five scalar attributes of class `Device`. -/
structure Device where
  cpu : ℚ
  bandwidth : ℚ
  delay : ℚ
  loss : ℚ
  self_processing_power : ℚ
deriving DecidableEq

/-- A candidate cloud as seen by one engine invocation: its id together
with the `(bandwidth, delay, loss)` triple returned by the measurement
collaborator for the (device, cloud) pair. -/
structure Candidate where
  id : Nat
  bandwidth : ℚ
  delay : ℚ
  loss : ℚ
deriving DecidableEq

/-- `round(x, 2)`: round to two decimal places (nearest, modelled with
half rounding up). -/
def round2 (x : ℚ) : ℚ := (round (100 * x) : ℤ) / 100

/-- `calculate_rating` (lines 89–94): normalise each input by 100, form
the weighted sum, clamp to `[0, 5]` and round to two decimals. -/
def calculate_rating (bandwidth delay loss : ℚ) : ℚ :=
  let norm_bandwidth := bandwidth / 100
  let norm_delay := delay / 100
  let norm_loss := loss / 100
  let rating := 5 * (0.2 * norm_bandwidth + 0.4 * (1 - norm_delay) + 0.4 * (1 - norm_loss))
  round2 (max 0 (min 5 rating))

/-- `get_network_activity` (lines 58–65): the fixed 24-entry diurnal
lookup table.  The Python dict raises `KeyError` outside `0..23`, so the
domain is `Fin 24`. -/
def get_network_activity (hour : Fin 24) : ℚ :=
  match hour.val with
  | 0 => 0.2 | 1 => 0.1 | 2 => 0.1 | 3 => 0.1 | 4 => 0.2 | 5 => 0.3
  | 6 => 0.4 | 7 => 0.6 | 8 => 0.8 | 9 => 0.9 | 10 => 0.9 | 11 => 0.9
  | 12 => 0.8 | 13 => 0.7 | 14 => 0.8 | 15 => 0.9 | 16 => 1.0 | 17 => 1.0
  | 18 => 0.9 | 19 => 0.8 | 20 => 0.7 | 21 => 0.6 | 22 => 0.5 | 23 => 0.3
  | _ => 0

/-- `sum(cloud_loads.values())` (line 110). -/
def totalLoad (loads : List (Nat × Nat)) : Nat :=
  (loads.map Prod.snd).sum

/-- `cloud_loads[id]` (line 114): first-match association-list lookup.
The Python dict raises `KeyError` for an unregistered id; the simulation
only ever queries registered ids, and the total function returns `0`
outside them. -/
def lookupLoad : List (Nat × Nat) → Nat → Nat
  | [], _ => 0
  | p :: ps, id => if p.1 = id then p.2 else lookupLoad ps id

/-- `load_score` (lines 110–114): `1` when the total load is zero,
otherwise `1 - cloud_loads[id] / total_load`. -/
def load_score (loads : List (Nat × Nat)) (id : Nat) : ℚ :=
  if totalLoad loads = 0 then 1
  else 1 - (lookupLoad loads id : ℚ) / (totalLoad loads : ℚ)

/-- `performance_score` (line 108). -/
def performance_score (bandwidth delay loss : ℚ) : ℚ :=
  bandwidth / 100 - delay / 100 - loss / 10

/-- The per-candidate combined score (lines 108–119): activity-weighted
mix of `performance_score` and `load_score`. -/
def combined_score (c : Candidate) (loads : List (Nat × Nat)) (activity : ℚ) : ℚ :=
  let p := performance_score c.bandwidth c.delay c.loss
  let l := load_score loads c.id
  if 0.7 < activity then p * 0.4 + l * 0.6 else p * 0.7 + l * 0.3

/-- The value held in `best_entity`: a specific cloud, the string
sentinel `'self'`, or (as `none`, via `Option`) the initial `None`. -/
inductive Entity
  | cloud (c : Candidate)
  | self
deriving DecidableEq

/-- The running state of `select_best_cloud`'s scan (lines 97–102 and
121–127): best entity so far, best score (with `⊥` for `-inf`), and the
rating/measurement triple of the current best. -/
structure SelState where
  best_entity : Option Entity
  best_score : WithBot ℚ
  best_rating : ℚ
  best_bandwidth : ℚ
  best_delay : ℚ
  best_loss : ℚ
deriving DecidableEq

/-- The pre-loop initialisation (lines 97–102). -/
def initState : SelState :=
  { best_entity := none, best_score := ⊥, best_rating := 0,
    best_bandwidth := 0, best_delay := 0, best_loss := 0 }

/-- One iteration of the scan loop (lines 105–127) on candidate `c`:
replace the running best exactly when `score > best_score`. -/
def scanStep (loads : List (Nat × Nat)) (activity : ℚ) (st : SelState) (c : Candidate) :
    SelState :=
  let score := combined_score c loads activity
  if st.best_score < (score : WithBot ℚ) then
    { best_entity := some (Entity.cloud c), best_score := (score : WithBot ℚ),
      best_rating := calculate_rating c.bandwidth c.delay c.loss,
      best_bandwidth := c.bandwidth, best_delay := c.delay, best_loss := c.loss }
  else st

/-- The whole scan over the candidate list (lines 105–127). -/
def scanClouds (clouds : List Candidate) (loads : List (Nat × Nat)) (activity : ℚ) :
    SelState :=
  clouds.foldl (scanStep loads activity) initState

/-- `self_score` (line 130). -/
def self_score (d : Device) : ℚ :=
  d.self_processing_power - d.cpu * 0.2

/-- `select_best_cloud` (lines 96–140): scan the candidates, then take
the `'self'` branch iff `self_score > best_score` and
`best_rating < 1.0`.  The returned tuple is the final state's
`best_entity`, measurement triple and rating. -/
def select_best_cloud (d : Device) (clouds : List Candidate)
    (loads : List (Nat × Nat)) (hour : Fin 24) : SelState :=
  let st := scanClouds clouds loads (get_network_activity hour)
  if st.best_score < (self_score d : WithBot ℚ) ∧ st.best_rating < 1 then
    { best_entity := some Entity.self, best_score := st.best_score,
      best_rating := calculate_rating d.bandwidth d.delay d.loss,
      best_bandwidth := d.bandwidth, best_delay := d.delay, best_loss := d.loss }
  else st

/-- `cloud_loads[id] += 1` (line 190): first-match update of the
association list; a no-op on an unregistered id (where the Python dict
would raise `KeyError`; the loop only increments registered ids). -/
def bumpLoad : List (Nat × Nat) → Nat → List (Nat × Nat)
  | [], _ => []
  | p :: ps, id => if p.1 = id then (p.1, p.2 + 1) :: ps else p :: bumpLoad ps id

/-- The load-state initialisation `{cloud.id: 0 for cloud in
cloud_servers}` (line 165). -/
def initLoads (ids : List Nat) : List (Nat × Nat) :=
  ids.map (fun i => (i, 0))

/-- The per-device body of the simulation loop (lines 182–191) restricted
to its effect on the load state: invoke the engine on the candidates
measured for this device and bump the winner's counter; a `'self'`
selection changes nothing.  (`best_entity = none` is unreachable — see
the safety theorem — and is mapped to "no change".) -/
def device_step (d : Device) (clouds : List Candidate)
    (loads : List (Nat × Nat)) (hour : Fin 24) : List (Nat × Nat) :=
  match (select_best_cloud d clouds loads hour).best_entity with
  | some (Entity.cloud c) => bumpLoad loads c.id
  | some Entity.self => loads
  | none => loads

/-- One tick of the simulation loop over the whole device fleet (lines
182–191): devices are processed sequentially, each seeing the load state
left by its predecessors.  `meas d` is the candidate list (clouds with
their measured triples) the collaborator produces for device `d`. -/
def tick_step (devices : List Device) (meas : Device → List Candidate)
    (loads : List (Nat × Nat)) (hour : Fin 24) : List (Nat × Nat) :=
  devices.foldl (fun ld d => device_step d (meas d) ld hour) loads

/-- The fallback measurement triple of `measure_performance` (lines
67–87): when iperf/ping output matches no pattern, bandwidth, delay and
loss all default to `0`. -/
def fallback_measurement : ℚ × ℚ × ℚ := (0, 0, 0)

/-! ### Helper lemmas -/

lemma round2_mono {x y : ℚ} (h : x ≤ y) : round2 x ≤ round2 y := by
  unfold round2
  have hr : round (100 * x) ≤ round (100 * y) := by
    rw [round_eq, round_eq]
    exact Int.floor_le_floor (by linarith)
  have hc : ((round (100 * x) : ℤ) : ℚ) ≤ ((round (100 * y) : ℤ) : ℚ) := by
    exact_mod_cast hr
  linarith

lemma round2_zero : round2 0 = 0 := by norm_num [round2]

lemma round2_five : round2 5 = 5 := by norm_num [round2]

lemma round2_clamp_nonneg (x : ℚ) : 0 ≤ round2 (max 0 (min 5 x)) := by
  calc (0 : ℚ) = round2 0 := round2_zero.symm
  _ ≤ round2 (max 0 (min 5 x)) := round2_mono (le_max_left _ _)

lemma round2_clamp_le_five (x : ℚ) : round2 (max 0 (min 5 x)) ≤ 5 := by
  calc round2 (max 0 (min 5 x)) ≤ round2 5 :=
        round2_mono (max_le (by norm_num) (min_le_left _ _))
  _ = 5 := round2_five

lemma calculate_rating_eq (b d l : ℚ) :
    calculate_rating b d l
      = round2 (max 0 (min 5 (5 * (0.2 * (b / 100) + 0.4 * (1 - d / 100) + 0.4 * (1 - l / 100))))) :=
  rfl

lemma calculate_rating_le_calculate_rating {b₁ d₁ l₁ b₂ d₂ l₂ : ℚ}
    (h : 5 * (0.2 * (b₁ / 100) + 0.4 * (1 - d₁ / 100) + 0.4 * (1 - l₁ / 100))
       ≤ 5 * (0.2 * (b₂ / 100) + 0.4 * (1 - d₂ / 100) + 0.4 * (1 - l₂ / 100))) :
    calculate_rating b₁ d₁ l₁ ≤ calculate_rating b₂ d₂ l₂ := by
  rw [calculate_rating_eq, calculate_rating_eq]
  exact round2_mono (max_le_max le_rfl (min_le_min le_rfl h))

/-! ### Claim theorems -/

/-- C3: `rating(bandwidth, delay, loss)` equals
`5 × (0.2 × bandwidth/100 + 0.4 × (1 − delay/100) + 0.4 × (1 − loss/100))`
clamped to `[0,5]` and rounded to 2 decimal places, and hence always lies
in `[0,5]`. -/
theorem claim_C3_rating_formula_and_bounds (b d l : ℚ) :
    calculate_rating b d l
      = round2 (max 0 (min 5 (5 * (0.2 * (b / 100) + 0.4 * (1 - d / 100) + 0.4 * (1 - l / 100))))) ∧
    0 ≤ calculate_rating b d l ∧ calculate_rating b d l ≤ 5 := by
  refine ⟨rfl, ?_, ?_⟩
  · rw [calculate_rating_eq]
    exact round2_clamp_nonneg _
  · rw [calculate_rating_eq]
    exact round2_clamp_le_five _

/-- C6: holding the other two inputs fixed, the rating is monotonically
non-decreasing in bandwidth and non-increasing in delay and in loss. -/
theorem claim_C6_rating_monotone :
    (∀ b₁ b₂ d l : ℚ, b₁ ≤ b₂ → calculate_rating b₁ d l ≤ calculate_rating b₂ d l) ∧
    (∀ b d₁ d₂ l : ℚ, d₁ ≤ d₂ → calculate_rating b d₂ l ≤ calculate_rating b d₁ l) ∧
    (∀ b d l₁ l₂ : ℚ, l₁ ≤ l₂ → calculate_rating b d l₂ ≤ calculate_rating b d l₁) := by
  refine ⟨?_, ?_, ?_⟩
  · intro b₁ b₂ d l h
    exact calculate_rating_le_calculate_rating (by linarith)
  · intro b d₁ d₂ l h
    exact calculate_rating_le_calculate_rating (by linarith)
  · intro b d l₁ l₂ h
    exact calculate_rating_le_calculate_rating (by linarith)

/-- Witness for C6 at the concrete inputs `(0,2,3) ≤ (1,2,3)` in
bandwidth, `(5,2,3)` vs `(5,7,3)` in delay, `(5,2,1)` vs `(5,2,6)` in
loss. -/
theorem claim_C6_rating_monotone_witness :
    calculate_rating 0 2 3 ≤ calculate_rating 1 2 3 ∧
    calculate_rating 5 7 3 ≤ calculate_rating 5 2 3 ∧
    calculate_rating 5 2 6 ≤ calculate_rating 5 2 1 :=
  ⟨claim_C6_rating_monotone.1 0 1 2 3 (by norm_num),
   claim_C6_rating_monotone.2.1 5 2 7 3 (by norm_num),
   claim_C6_rating_monotone.2.2 5 2 1 6 (by norm_num)⟩

/-- C9: the parse-failure fallback triple `(0, 0, 0)` of
`measure_performance` is rated exactly `4.0` by `calculate_rating`. -/
theorem claim_C9_fallback_rating :
    calculate_rating fallback_measurement.1 fallback_measurement.2.1 fallback_measurement.2.2 = 4 := by
  norm_num [fallback_measurement, calculate_rating, round2]

lemma totalLoad_append_cons (pre post : List (Nat × Nat)) (id x : Nat) :
    totalLoad (pre ++ (id, x) :: post) = totalLoad pre + (x + totalLoad post) := by
  simp [totalLoad]

lemma lookupLoad_append_of_not_mem (pre : List (Nat × Nat)) (rest : List (Nat × Nat))
    (id : Nat) (h : id ∉ pre.map Prod.fst) :
    lookupLoad (pre ++ rest) id = lookupLoad rest id := by
  induction pre with
  | nil => rfl
  | cons p ps ih =>
    simp only [List.map_cons, List.mem_cons] at h
    push_neg at h
    have hstep : lookupLoad ((p :: ps) ++ rest) id = lookupLoad (ps ++ rest) id := by
      simp only [List.cons_append, lookupLoad]
      rw [if_neg (Ne.symm h.1)]
      rfl
    rw [hstep, ih h.2]

lemma lookupLoad_cons_self (post : List (Nat × Nat)) (id x : Nat) :
    lookupLoad ((id, x) :: post) id = x := by
  simp [lookupLoad]

/-- C7: the combined score is `0.4 × performance_score + 0.6 × load_score`
when `activity(hour) > 0.7` and `0.7 × performance_score + 0.3 ×
load_score` otherwise (so the busy branch requires strict inequality),
with `performance_score = bandwidth/100 − delay/100 − loss/10`. -/
theorem claim_C7_combined_score_formula (c : Candidate) (loads : List (Nat × Nat)) (hour : Fin 24) :
    (0.7 < get_network_activity hour →
      combined_score c loads (get_network_activity hour)
        = 0.4 * performance_score c.bandwidth c.delay c.loss + 0.6 * load_score loads c.id) ∧
    (get_network_activity hour ≤ 0.7 →
      combined_score c loads (get_network_activity hour)
        = 0.7 * performance_score c.bandwidth c.delay c.loss + 0.3 * load_score loads c.id) ∧
    (∀ b d l : ℚ, performance_score b d l = b / 100 - d / 100 - l / 10) := by
  refine ⟨?_, ?_, fun b d l => rfl⟩
  · intro h
    unfold combined_score
    rw [if_pos h]
    ring
  · intro h
    unfold combined_score
    rw [if_neg (not_lt.mpr h)]
    ring

/-- Witness for C7: hour 16 (activity 1.0, busy branch) and hour 0
(activity 0.2, idle branch) on a concrete candidate. -/
theorem claim_C7_combined_score_formula_witness :
    (0.7 < get_network_activity 16 ∧
      combined_score ⟨1, 50, 10, 2⟩ [] (get_network_activity 16)
        = 0.4 * performance_score 50 10 2 + 0.6 * load_score [] 1) ∧
    (get_network_activity 0 ≤ 0.7 ∧
      combined_score ⟨1, 50, 10, 2⟩ [] (get_network_activity 0)
        = 0.7 * performance_score 50 10 2 + 0.3 * load_score [] 1) :=
  ⟨⟨by norm_num [get_network_activity],
    (claim_C7_combined_score_formula ⟨1, 50, 10, 2⟩ [] 16).1 (by norm_num [get_network_activity])⟩,
   ⟨by norm_num [get_network_activity],
    (claim_C7_combined_score_formula ⟨1, 50, 10, 2⟩ [] 0).2.1 (by norm_num [get_network_activity])⟩⟩

/-- C5 as stated is false: with a single registered cloud (so the rest of
the fleet carries zero load), raising its counter from 1 to 2 leaves its
`load_score` at 0 — the total load is nonzero in both evaluations, yet
the score does not strictly decrease. -/
theorem claim_C5_counterexample :
    totalLoad [(1, 1)] ≠ 0 ∧ totalLoad [(1, 2)] ≠ 0 ∧
    lookupLoad [(1, 1)] 1 < lookupLoad [(1, 2)] 1 ∧
    ¬ load_score [(1, 2)] 1 < load_score [(1, 1)] 1 := by
  norm_num [totalLoad, lookupLoad, load_score]

/-- C5 amended: `load_score` is 1 when the total load is zero; and
raising a cloud's own counter, all other entries unchanged, strictly
decreases its `load_score` provided the other entries carry a nonzero
total load. -/
theorem claim_C5_load_score_amended :
    (∀ (loads : List (Nat × Nat)) (id : Nat), totalLoad loads = 0 → load_score loads id = 1) ∧
    (∀ (pre post : List (Nat × Nat)) (id x₁ x₂ : Nat),
      id ∉ pre.map Prod.fst → x₁ < x₂ → 0 < totalLoad pre + totalLoad post →
      load_score (pre ++ (id, x₂) :: post) id < load_score (pre ++ (id, x₁) :: post) id) := by
  constructor
  · intro loads id h
    simp [load_score, h]
  · intro pre post id x₁ x₂ hpre hx hr
    have h₁ : lookupLoad (pre ++ (id, x₁) :: post) id = x₁ := by
      rw [lookupLoad_append_of_not_mem pre _ id hpre, lookupLoad_cons_self]
    have h₂ : lookupLoad (pre ++ (id, x₂) :: post) id = x₂ := by
      rw [lookupLoad_append_of_not_mem pre _ id hpre, lookupLoad_cons_self]
    have t₁ : totalLoad (pre ++ (id, x₁) :: post) = x₁ + (totalLoad pre + totalLoad post) := by
      rw [totalLoad_append_cons]; omega
    have t₂ : totalLoad (pre ++ (id, x₂) :: post) = x₂ + (totalLoad pre + totalLoad post) := by
      rw [totalLoad_append_cons]; omega
    rw [load_score, load_score, h₁, h₂, t₁, t₂, if_neg (by omega), if_neg (by omega)]
    have hrq : (0 : ℚ) < (totalLoad pre + totalLoad post : ℕ) := by exact_mod_cast hr
    have hxq : ((x₁ : ℚ)) < (x₂ : ℚ) := by exact_mod_cast hx
    have hd₁ : (0 : ℚ) < ((x₁ : ℕ) : ℚ) + ((totalLoad pre + totalLoad post : ℕ) : ℚ) := by
      have : (0 : ℚ) ≤ ((x₁ : ℕ) : ℚ) := by positivity
      linarith
    have hd₂ : (0 : ℚ) < ((x₂ : ℕ) : ℚ) + ((totalLoad pre + totalLoad post : ℕ) : ℚ) := by
      have : (0 : ℚ) ≤ ((x₂ : ℕ) : ℚ) := by positivity
      linarith
    have hrq' : (0 : ℚ) < (totalLoad pre : ℚ) + (totalLoad post : ℚ) := by
      push_cast at hrq
      linarith
    push_cast
    have key : (x₁ : ℚ) / (x₁ + (totalLoad pre + totalLoad post : ℕ))
        < (x₂ : ℚ) / (x₂ + (totalLoad pre + totalLoad post : ℕ)) := by
      rw [div_lt_div_iff₀ (by push_cast at hd₁ ⊢; linarith) (by push_cast at hd₂ ⊢; linarith)]
      push_cast
      nlinarith [mul_lt_mul_of_pos_right hxq hrq']
    push_cast at key
    linarith

/-- Witness for C5 amended: a second cloud with load 1 makes the rest
nonzero; raising cloud 1's counter from 0 to 1 drops its score from 1 to
1/2; and the empty load table has total 0 and score 1. -/
theorem claim_C5_load_score_amended_witness :
    totalLoad ([] : List (Nat × Nat)) = 0 ∧ load_score [] 7 = 1 ∧
    (1 : Nat) ∉ ([(2, 1)] : List (Nat × Nat)).map Prod.fst ∧
    0 < totalLoad [(2, 1)] + totalLoad [] ∧
    load_score ([(2, 1)] ++ [(1, 1)]) 1 < load_score ([(2, 1)] ++ [(1, 0)]) 1 :=
  ⟨rfl, claim_C5_load_score_amended.1 [] 7 rfl, by decide, by decide,
   claim_C5_load_score_amended.2 [(2, 1)] [] 1 0 1 (by decide) (by decide) (by decide)⟩

/-- C2: invoked with an empty candidate list, the code does **not** raise
an `InvalidInput` condition — the self gate fires against the initial
`-inf`/rating-0 state and the call returns the sentinel `'self'`
(evaluated here on a concrete device at hour 0). -/
theorem claim_C2_empty_clouds_selects_self :
    (select_best_cloud ⟨0.3, 50, 10, 1, 0.2⟩ [] [] 0).best_entity = some Entity.self := by
  simp [select_best_cloud, scanClouds, initState, self_score]

lemma scanStep_entity_cases (loads : List (Nat × Nat)) (a : ℚ) (st : SelState) (c : Candidate) :
    scanStep loads a st c = st ∨
    scanStep loads a st c =
      { best_entity := some (Entity.cloud c),
        best_score := (combined_score c loads a : WithBot ℚ),
        best_rating := calculate_rating c.bandwidth c.delay c.loss,
        best_bandwidth := c.bandwidth, best_delay := c.delay, best_loss := c.loss } := by
  simp only [scanStep]
  split_ifs with h
  · right; rfl
  · left; rfl

lemma scan_entity_invariant (loads : List (Nat × Nat)) (a : ℚ) :
    ∀ (cs : List Candidate) (st : SelState),
      (List.foldl (scanStep loads a) st cs).best_entity = st.best_entity ∨
      ∃ x, x ∈ cs ∧
        (List.foldl (scanStep loads a) st cs).best_entity = some (Entity.cloud x) := by
  intro cs
  induction cs with
  | nil => intro st; exact Or.inl rfl
  | cons c cs ih =>
    intro st
    rw [List.foldl_cons]
    rcases scanStep_entity_cases loads a st c with hs | hs
    · rw [hs]
      rcases ih st with h | ⟨x, hx, h⟩
      · exact Or.inl h
      · exact Or.inr ⟨x, List.mem_cons_of_mem c hx, h⟩
    · rw [hs]
      rcases ih _ with h | ⟨x, hx, h⟩
      · exact Or.inr ⟨c, List.mem_cons_self c cs, h⟩
      · exact Or.inr ⟨x, List.mem_cons_of_mem c hx, h⟩

lemma scanClouds_not_self (clouds : List Candidate) (loads : List (Nat × Nat)) (a : ℚ) :
    (scanClouds clouds loads a).best_entity ≠ some Entity.self := by
  unfold scanClouds
  rcases scan_entity_invariant loads a clouds initState with h | ⟨x, _, h⟩
  · rw [h]
    intro hc
    exact Option.noConfusion hc
  · rw [h]
    intro hc
    exact Entity.noConfusion (Option.some.inj hc)

/-- C1: the engine returns `'self'` only if `self_score` beats the best
cloud's combined score and the best cloud's rating is strictly below 1.0;
consequently `'self'` is never returned when the best cloud's rating is
`≥ 1.0`, regardless of `self_score`. -/
theorem claim_C1_self_double_gate (d : Device) (clouds : List Candidate)
    (loads : List (Nat × Nat)) (hour : Fin 24) :
    ((select_best_cloud d clouds loads hour).best_entity = some Entity.self →
      (scanClouds clouds loads (get_network_activity hour)).best_score
          < (self_score d : WithBot ℚ) ∧
      (scanClouds clouds loads (get_network_activity hour)).best_rating < 1) ∧
    (1 ≤ (scanClouds clouds loads (get_network_activity hour)).best_rating →
      (select_best_cloud d clouds loads hour).best_entity ≠ some Entity.self) := by
  simp only [select_best_cloud]
  split_ifs with hgate
  · refine ⟨fun _ => hgate, fun hge _ => ?_⟩
    linarith [hgate.2]
  · refine ⟨fun hself => absurd hself (scanClouds_not_self _ _ _), fun _ => ?_⟩
    exact scanClouds_not_self _ _ _

/-- Witness for C1: with the single unmeasured-looking candidate
`(0,0,0)` the best cloud's rating evaluates to `4 ≥ 1`, and the call
indeed does not return `'self'`; conversely on an empty scan state with a
strong device the self branch fires, exhibiting both gate conditions. -/
theorem claim_C1_self_double_gate_witness :
    (1 ≤ (scanClouds [⟨1, 0, 0, 0⟩] [] (get_network_activity 0)).best_rating ∧
      (select_best_cloud ⟨0.3, 50, 10, 1, 0.2⟩ [⟨1, 0, 0, 0⟩] [] 0).best_entity
        ≠ some Entity.self) ∧
    ((select_best_cloud ⟨0.3, 50, 10, 1, 0.2⟩ [] [] 0).best_entity = some Entity.self ∧
      (scanClouds [] [] (get_network_activity 0)).best_score
          < (self_score ⟨0.3, 50, 10, 1, 0.2⟩ : WithBot ℚ) ∧
      (scanClouds [] [] (get_network_activity 0)).best_rating < 1) := by
  have hrating : 1 ≤ (scanClouds [⟨1, 0, 0, 0⟩] [] (get_network_activity 0)).best_rating := by
    simp [scanClouds, scanStep, initState, combined_score, performance_score, load_score,
          totalLoad, lookupLoad, calculate_rating, round2]
    norm_num
  have hself : (select_best_cloud ⟨0.3, 50, 10, 1, 0.2⟩ [] [] 0).best_entity
      = some Entity.self := by
    simp [select_best_cloud, scanClouds, initState, self_score]
  exact ⟨⟨hrating, (claim_C1_self_double_gate ⟨0.3, 50, 10, 1, 0.2⟩ [⟨1, 0, 0, 0⟩] [] 0).2 hrating⟩,
         ⟨hself, (claim_C1_self_double_gate ⟨0.3, 50, 10, 1, 0.2⟩ [] [] 0).1 hself⟩⟩

/-- C10: for every non-empty candidate list the engine returns a defined
selection — one of the input clouds or `'self'` — never the initial
`None`. -/
theorem claim_C10_nonempty_selection_defined (d : Device) (c : Candidate) (cs : List Candidate)
    (loads : List (Nat × Nat)) (hour : Fin 24) :
    ∃ e, (select_best_cloud d (c :: cs) loads hour).best_entity = some e ∧
      (e = Entity.self ∨ ∃ x, x ∈ c :: cs ∧ e = Entity.cloud x) := by
  simp only [select_best_cloud]
  split_ifs with hgate
  · exact ⟨Entity.self, rfl, Or.inl rfl⟩
  · have hfirst : scanStep loads (get_network_activity hour) initState c =
        { best_entity := some (Entity.cloud c),
          best_score := (combined_score c loads (get_network_activity hour) : WithBot ℚ),
          best_rating := calculate_rating c.bandwidth c.delay c.loss,
          best_bandwidth := c.bandwidth, best_delay := c.delay, best_loss := c.loss } := by
      simp only [scanStep, initState]
      rw [if_pos (WithBot.bot_lt_coe _)]
    have hscan : scanClouds (c :: cs) loads (get_network_activity hour)
        = List.foldl (scanStep loads (get_network_activity hour))
            (scanStep loads (get_network_activity hour) initState c) cs := by
      unfold scanClouds
      rw [List.foldl_cons]
    rcases scan_entity_invariant loads (get_network_activity hour) cs
        (scanStep loads (get_network_activity hour) initState c) with h | ⟨x, hx, h⟩
    · refine ⟨Entity.cloud c, ?_, Or.inr ⟨c, List.mem_cons_self c cs, rfl⟩⟩
      rw [hscan, h, hfirst]
    · refine ⟨Entity.cloud x, ?_, Or.inr ⟨x, List.mem_cons_of_mem c hx, rfl⟩⟩
      rw [hscan, h]

lemma scan_stays (loads : List (Nat × Nat)) (a : ℚ) (s : ℚ) :
    ∀ (cs : List Candidate) (st : SelState), st.best_score = (s : WithBot ℚ) →
      (∀ x ∈ cs, combined_score x loads a ≤ s) →
      List.foldl (scanStep loads a) st cs = st := by
  intro cs
  induction cs with
  | nil => intro st _ _; rfl
  | cons c cs ih =>
    intro st hs hall
    have hstep : scanStep loads a st c = st := by
      simp only [scanStep]
      rw [if_neg]
      rw [hs]
      exact not_lt.mpr (WithBot.coe_le_coe.mpr (hall c (List.mem_cons_self c cs)))
    rw [List.foldl_cons, hstep]
    exact ih st hs (fun x hx => hall x (List.mem_cons_of_mem c hx))

/-- C4 as stated is false: with two candidates carrying identical
combined scores, the engine can still return `'self'` rather than the
first candidate — here a device with `self_score = 1` against two
identically-scored candidates whose rating is 0. -/
theorem claim_C4_counterexample :
    combined_score ⟨1, 0, 400, 0⟩ [(1, 0), (2, 0)] (get_network_activity 0)
      = combined_score ⟨2, 0, 400, 0⟩ [(1, 0), (2, 0)] (get_network_activity 0) ∧
    (select_best_cloud ⟨0, 0, 400, 0, 1⟩ [⟨1, 0, 400, 0⟩, ⟨2, 0, 400, 0⟩] [(1, 0), (2, 0)] 0).best_entity
      ≠ some (Entity.cloud ⟨1, 0, 400, 0⟩) := by
  constructor
  · simp [combined_score, performance_score, load_score, totalLoad, lookupLoad,
          get_network_activity]
  · have hval : (select_best_cloud ⟨0, 0, 400, 0, 1⟩ [⟨1, 0, 400, 0⟩, ⟨2, 0, 400, 0⟩]
        [(1, 0), (2, 0)] 0).best_entity = some Entity.self := by
      simp [select_best_cloud, scanClouds, scanStep, initState, self_score,
            get_network_activity, combined_score, performance_score, load_score,
            totalLoad, lookupLoad, calculate_rating, round2]
      norm_num
    rw [hval]
    intro hc
    exact Entity.noConfusion (Option.some.inj hc)

/-- C4 amended: when all candidates carry the same combined score, the
scan keeps the first candidate (a later candidate displaces the running
best only on a strictly greater score), and `select_best_cloud` returns
that first candidate unless the self gate — `self_score` above the tied
score and the first candidate's rating below 1.0 — fires, in which case
it returns `'self'`. -/
theorem claim_C4_tie_keeps_first_amended (d : Device) (c : Candidate) (cs : List Candidate)
    (loads : List (Nat × Nat)) (hour : Fin 24)
    (hall : ∀ x ∈ c :: cs, combined_score x loads (get_network_activity hour)
              = combined_score c loads (get_network_activity hour)) :
    (scanClouds (c :: cs) loads (get_network_activity hour)).best_entity
        = some (Entity.cloud c) ∧
    (select_best_cloud d (c :: cs) loads hour).best_entity
        = (if combined_score c loads (get_network_activity hour) < self_score d
              ∧ calculate_rating c.bandwidth c.delay c.loss < 1
           then some Entity.self else some (Entity.cloud c)) := by
  have hfirst : scanStep loads (get_network_activity hour) initState c =
      { best_entity := some (Entity.cloud c),
        best_score := (combined_score c loads (get_network_activity hour) : WithBot ℚ),
        best_rating := calculate_rating c.bandwidth c.delay c.loss,
        best_bandwidth := c.bandwidth, best_delay := c.delay, best_loss := c.loss } := by
    simp only [scanStep, initState]
    rw [if_pos (WithBot.bot_lt_coe _)]
  have hscan : scanClouds (c :: cs) loads (get_network_activity hour) =
      { best_entity := some (Entity.cloud c),
        best_score := (combined_score c loads (get_network_activity hour) : WithBot ℚ),
        best_rating := calculate_rating c.bandwidth c.delay c.loss,
        best_bandwidth := c.bandwidth, best_delay := c.delay, best_loss := c.loss } := by
    unfold scanClouds
    rw [List.foldl_cons, hfirst]
    exact scan_stays loads (get_network_activity hour)
      (combined_score c loads (get_network_activity hour)) cs _ rfl
      (fun x hx => le_of_eq (hall x (List.mem_cons_of_mem c hx)))
  refine ⟨by rw [hscan], ?_⟩
  simp only [select_best_cloud, hscan]
  by_cases hg : combined_score c loads (get_network_activity hour) < self_score d
      ∧ calculate_rating c.bandwidth c.delay c.loss < 1
  · rw [if_pos ⟨WithBot.coe_lt_coe.mpr hg.1, hg.2⟩, if_pos hg]
  · rw [if_neg ?_, if_neg hg]
    intro hcontra
    exact hg ⟨WithBot.coe_lt_coe.mp hcontra.1, hcontra.2⟩

/-- Witness for C4 amended: two identical `(0,0,0)`-measured candidates
under zero load at hour 0 tie at score `0.3`; the device's
`self_score = 0.14` does not beat it, so the first candidate (id 1) is
returned. -/
theorem claim_C4_tie_keeps_first_amended_witness :
    (∀ x ∈ ([⟨1, 0, 0, 0⟩, ⟨2, 0, 0, 0⟩] : List Candidate),
      combined_score x [(1, 0), (2, 0)] (get_network_activity 0)
        = combined_score ⟨1, 0, 0, 0⟩ [(1, 0), (2, 0)] (get_network_activity 0)) ∧
    (scanClouds [⟨1, 0, 0, 0⟩, ⟨2, 0, 0, 0⟩] [(1, 0), (2, 0)] (get_network_activity 0)).best_entity
        = some (Entity.cloud ⟨1, 0, 0, 0⟩) ∧
    (select_best_cloud ⟨0.3, 50, 10, 1, 0.2⟩ [⟨1, 0, 0, 0⟩, ⟨2, 0, 0, 0⟩] [(1, 0), (2, 0)] 0).best_entity
        = some (Entity.cloud ⟨1, 0, 0, 0⟩) := by
  have hall : ∀ x ∈ ([⟨1, 0, 0, 0⟩, ⟨2, 0, 0, 0⟩] : List Candidate),
      combined_score x [(1, 0), (2, 0)] (get_network_activity 0)
        = combined_score ⟨1, 0, 0, 0⟩ [(1, 0), (2, 0)] (get_network_activity 0) := by
    intro x hx
    rcases List.mem_cons.mp hx with h | hx'
    · rw [h]
    · rcases List.mem_cons.mp hx' with h | hx''
      · rw [h]
        simp [combined_score, performance_score, load_score, totalLoad, lookupLoad]
      · exact absurd hx'' (List.not_mem_nil x)
  have hmain := claim_C4_tie_keeps_first_amended ⟨0.3, 50, 10, 1, 0.2⟩ ⟨1, 0, 0, 0⟩
      [⟨2, 0, 0, 0⟩] [(1, 0), (2, 0)] 0 hall
  refine ⟨hall, hmain.1, ?_⟩
  rw [hmain.2, if_neg]
  intro hcontra
  have h1 : combined_score ⟨1, 0, 0, 0⟩ [(1, 0), (2, 0)] (get_network_activity 0) = 0.3 := by
    simp [combined_score, performance_score, load_score, totalLoad, lookupLoad,
          get_network_activity]
    norm_num
  have h2 : self_score ⟨0.3, 50, 10, 1, 0.2⟩ = 0.14 := by
    simp [self_score]
    norm_num
  rw [h1, h2] at hcontra
  have := hcontra.1
  norm_num at this

lemma lookupLoad_initLoads (ids : List Nat) (j : Nat) :
    lookupLoad (initLoads ids) j = 0 := by
  induction ids with
  | nil => rfl
  | cons i is ih =>
    simp only [initLoads, List.map_cons, lookupLoad] at ih ⊢
    split_ifs
    · rfl
    · exact ih

lemma lookupLoad_bumpLoad_self (loads : List (Nat × Nat)) (id : Nat)
    (h : id ∈ loads.map Prod.fst) :
    lookupLoad (bumpLoad loads id) id = lookupLoad loads id + 1 := by
  induction loads with
  | nil => exact absurd h (List.not_mem_nil id)
  | cons p ps ih =>
    by_cases hp : p.1 = id
    · simp only [bumpLoad, if_pos hp, lookupLoad, if_pos hp]
    · have hmem : id ∈ ps.map Prod.fst := by
        rcases List.mem_cons.mp h with h' | h'
        · exact absurd h'.symm hp
        · exact h'
      simp only [bumpLoad, if_neg hp, lookupLoad, if_neg hp]
      exact ih hmem

lemma lookupLoad_bumpLoad_other (loads : List (Nat × Nat)) (id j : Nat) (h : j ≠ id) :
    lookupLoad (bumpLoad loads id) j = lookupLoad loads j := by
  induction loads with
  | nil => rfl
  | cons p ps ih =>
    by_cases hp : p.1 = id
    · have hpj : ¬ p.1 = j := fun hc => h (hc.symm.trans hp)
      simp only [bumpLoad, if_pos hp, lookupLoad, if_neg hpj]
    · by_cases hpj : p.1 = j
      · simp only [bumpLoad, if_neg hp, lookupLoad, if_pos hpj]
      · simp only [bumpLoad, if_neg hp, lookupLoad, if_neg hpj]
        exact ih

lemma lookupLoad_le_bumpLoad (loads : List (Nat × Nat)) (id j : Nat) :
    lookupLoad loads j ≤ lookupLoad (bumpLoad loads id) j := by
  induction loads with
  | nil => exact le_refl 0
  | cons p ps ih =>
    by_cases hp : p.1 = id
    · by_cases hpj : p.1 = j
      · simp only [bumpLoad, if_pos hp, lookupLoad, if_pos hpj]
        exact Nat.le_succ _
      · simp only [bumpLoad, if_pos hp, lookupLoad, if_neg hpj]
        exact le_refl _
    · by_cases hpj : p.1 = j
      · simp only [bumpLoad, if_neg hp, lookupLoad, if_pos hpj]
        exact le_refl _
      · simp only [bumpLoad, if_neg hp, lookupLoad, if_neg hpj]
        exact ih

lemma lookupLoad_le_device_step (d : Device) (clouds : List Candidate)
    (loads : List (Nat × Nat)) (hour : Fin 24) (j : Nat) :
    lookupLoad loads j ≤ lookupLoad (device_step d clouds loads hour) j := by
  unfold device_step
  rcases hE : (select_best_cloud d clouds loads hour).best_entity with _ | e
  · exact le_refl _
  · cases e with
    | cloud c => exact lookupLoad_le_bumpLoad loads c.id j
    | self => exact le_refl _

lemma lookupLoad_le_tick_step (devices : List Device) (meas : Device → List Candidate)
    (loads : List (Nat × Nat)) (hour : Fin 24) (j : Nat) :
    lookupLoad loads j ≤ lookupLoad (tick_step devices meas loads hour) j := by
  induction devices generalizing loads with
  | nil => exact le_refl _
  | cons d ds ih =>
    calc lookupLoad loads j
        ≤ lookupLoad (device_step d (meas d) loads hour) j :=
          lookupLoad_le_device_step d (meas d) loads hour j
      _ ≤ lookupLoad (tick_step ds meas (device_step d (meas d) loads hour) hour) j :=
          ih (device_step d (meas d) loads hour)
      _ = lookupLoad (tick_step (d :: ds) meas loads hour) j := rfl

/-- C8: load counters start at 0; the loop bumps exactly the winning
cloud's counter by 1 and touches nothing else on a cloud win; a `'self'`
selection leaves the whole load state unchanged (the engine itself only
reads the loads — in this embedding `select_best_cloud` returns no load
state at all); consequently every counter is monotonically non-decreasing
across a tick. -/
theorem claim_C8_load_counter_discipline :
    (∀ (ids : List Nat) (j : Nat), lookupLoad (initLoads ids) j = 0) ∧
    (∀ (d : Device) (clouds : List Candidate) (loads : List (Nat × Nat)) (hour : Fin 24),
      (select_best_cloud d clouds loads hour).best_entity = some Entity.self →
      device_step d clouds loads hour = loads) ∧
    (∀ (d : Device) (clouds : List Candidate) (loads : List (Nat × Nat)) (hour : Fin 24)
       (c : Candidate),
      (select_best_cloud d clouds loads hour).best_entity = some (Entity.cloud c) →
      device_step d clouds loads hour = bumpLoad loads c.id) ∧
    (∀ (loads : List (Nat × Nat)) (id : Nat), id ∈ loads.map Prod.fst →
      lookupLoad (bumpLoad loads id) id = lookupLoad loads id + 1) ∧
    (∀ (loads : List (Nat × Nat)) (id j : Nat), j ≠ id →
      lookupLoad (bumpLoad loads id) j = lookupLoad loads j) ∧
    (∀ (devices : List Device) (meas : Device → List Candidate) (loads : List (Nat × Nat))
       (hour : Fin 24) (j : Nat),
      lookupLoad loads j ≤ lookupLoad (tick_step devices meas loads hour) j) := by
  refine ⟨lookupLoad_initLoads, ?_, ?_, lookupLoad_bumpLoad_self, lookupLoad_bumpLoad_other,
          lookupLoad_le_tick_step⟩
  · intro d clouds loads hour hE
    unfold device_step
    rw [hE]
  · intro d clouds loads hour c hE
    unfold device_step
    rw [hE]

/-- Witness for C8 at concrete inputs: a `'self'` selection (empty
candidate list, strong device) leaves the loads unchanged; a cloud win
(candidate 1 with rating 4) bumps exactly counter 1 of `[(1,0),(2,0)]`
from 0 to 1, leaving counter 2 at 0; and a one-device tick never
decreases a counter. -/
theorem claim_C8_load_counter_discipline_witness :
    lookupLoad (initLoads [1, 2]) 1 = 0 ∧
    device_step ⟨0.3, 50, 10, 1, 0.2⟩ [] [(1, 0), (2, 0)] 0 = [(1, 0), (2, 0)] ∧
    device_step ⟨0.3, 50, 10, 1, 0.2⟩ [⟨1, 0, 0, 0⟩] [(1, 0), (2, 0)] 0
      = bumpLoad [(1, 0), (2, 0)] 1 ∧
    (1 : Nat) ∈ ([(1, 0), (2, 0)] : List (Nat × Nat)).map Prod.fst ∧
    lookupLoad (bumpLoad [(1, 0), (2, 0)] 1) 1 = lookupLoad [(1, 0), (2, 0)] 1 + 1 ∧
    (2 : Nat) ≠ 1 ∧
    lookupLoad (bumpLoad [(1, 0), (2, 0)] 1) 2 = lookupLoad [(1, 0), (2, 0)] 2 ∧
    lookupLoad [(1, 0), (2, 0)] 1
      ≤ lookupLoad (tick_step [⟨0.3, 50, 10, 1, 0.2⟩]
          (fun _ => [⟨1, 0, 0, 0⟩]) [(1, 0), (2, 0)] 0) 1 := by
  have hself : (select_best_cloud ⟨0.3, 50, 10, 1, 0.2⟩ [] [(1, 0), (2, 0)] 0).best_entity
      = some Entity.self := by
    simp [select_best_cloud, scanClouds, initState, self_score]
  have hcloud : (select_best_cloud ⟨0.3, 50, 10, 1, 0.2⟩ [⟨1, 0, 0, 0⟩]
      [(1, 0), (2, 0)] 0).best_entity = some (Entity.cloud ⟨1, 0, 0, 0⟩) := by
    simp [select_best_cloud, scanClouds, scanStep, initState, self_score,
          get_network_activity, combined_score, performance_score, load_score,
          totalLoad, lookupLoad, calculate_rating, round2]
    norm_num
  refine ⟨claim_C8_load_counter_discipline.1 [1, 2] 1,
          claim_C8_load_counter_discipline.2.1 ⟨0.3, 50, 10, 1, 0.2⟩ [] [(1, 0), (2, 0)] 0 hself,
          claim_C8_load_counter_discipline.2.2.1 ⟨0.3, 50, 10, 1, 0.2⟩ [⟨1, 0, 0, 0⟩]
            [(1, 0), (2, 0)] 0 ⟨1, 0, 0, 0⟩ hcloud,
          by decide,
          claim_C8_load_counter_discipline.2.2.2.1 [(1, 0), (2, 0)] 1 (by decide),
          by decide,
          claim_C8_load_counter_discipline.2.2.2.2.1 [(1, 0), (2, 0)] 1 2 (by decide),
          claim_C8_load_counter_discipline.2.2.2.2.2 [⟨0.3, 50, 10, 1, 0.2⟩]
            (fun _ => [⟨1, 0, 0, 0⟩]) [(1, 0), (2, 0)] 0 1⟩
